import Mathlib

/-
Shallow embedding of `src/app.py` (a MyAnimeList Discord bot).

Numeric conventions: MyAnimeList ratings and user guesses (Python floats)
are embedded as exact rationals `ℚ`; Discord snowflake user ids and anime
ids as `Nat`; the pool-size command argument (a Python `int`) as `Int`.
Python dictionaries for sessions become structures; the two module-level
session dictionaries (`user_guess_sessions`, `user_higher_lower_sessions`)
are keyed by user id and every handler reads/writes only the invoking
user's entry, so the store is embedded as the invoking user's slot, an
`Option` session.  `random.randint(0, len(pool) - 1)` is embedded by
passing an arbitrary `rand : Nat` and reducing it modulo the pool length,
so every in-range index is representable.  Upstream HTTP calls
(`get_top_anime_by_rank`) are embedded as an oracle
`api : Nat → Nat → Option (List AnimeNode)` mapping (batch limit, offset)
to the parsed response data, `none` meaning a non-200 or malformed
response (the ranking type is fixed inside the oracle).
-/

/-- One normalized catalog entry: the `node` dictionaries that the game and
pagination code reads (`id`, `title`, `mean`, `main_picture`).  `mean` is
`none` when the upstream record lacks a rating; the game code reads it with
`.get("mean", 0)`. -/
structure AnimeNode where
  id : Nat
  title : String
  mean : Option ℚ
  main_picture : Option String
deriving DecidableEq, Inhabited

/-- Difficulty strings accepted by `/guessgame` after validation. -/
inductive Difficulty
  | easy
  | medium
  | hard
deriving DecidableEq, Inhabited

/-- Margin table from `guess` (src/app.py lines 815-820): successive `if`
statements assigning 0.5 / 0.25 / 0.1 by difficulty. -/
def margin : Difficulty → ℚ
  | Difficulty.easy => 1/2
  | Difficulty.medium => 1/4
  | Difficulty.hard => 1/10

/-- The rating the game code uses for a node: `node.get("mean", 0)`. -/
def ratingOf (a : AnimeNode) : ℚ := a.mean.getD 0

/-- Python's built-in `abs` on the rational embedding of floats. -/
def pyAbs (q : ℚ) : ℚ := if q < 0 then -q else q

/-- Python's `str.lower()` (character-wise lower-casing). -/
def pyLower (s : String) : String := String.mk (s.data.map Char.toLower)

/-- Embedding of `pool.pop(random.randint(0, len(pool) - 1))`: the random
draw is supplied as an arbitrary `rand : Nat` taken modulo the pool length,
so exactly the indices `randint` can produce are reachable.  Returns `none`
exactly when the pool is empty (the source only pops non-empty pools). -/
def popRandom (pool : List AnimeNode) (rand : Nat) : Option (AnimeNode × List AnimeNode) :=
  match pool[rand % pool.length]? with
  | some a => some (a, pool.eraseIdx (rand % pool.length))
  | none => none

/-- Per-user Guess-The-Rating session dictionary
(`user_guess_sessions[user_id]`, src/app.py lines 753-758). -/
structure GuessSession where
  current_anime : AnimeNode
  anime_pool : List AnimeNode
  score : Nat
  difficulty : Difficulty
deriving DecidableEq, Inhabited

/-- Observable outcome of one `/guess` invocation (which reply embed the
handler sends). -/
inductive GuessOutcome
  | noSession
  | invalidRange
  | correctNext (score : Nat) (next : AnimeNode)
  | correctGameOver (finalScore : Nat)
  | wrongGameOver (finalScore : Nat)
deriving DecidableEq, Inhabited

/-- Whether an outcome is the handler's "✓ Correct!" embed. -/
def GuessOutcome.isCorrect : GuessOutcome → Bool
  | GuessOutcome.correctNext _ _ => true
  | GuessOutcome.correctGameOver _ => true
  | _ => false

/-- Embedding of the `/guess` handler body (src/app.py lines 784-873),
acting on the invoking user's session slot.  Order of checks as in the
source: missing session, then the 0-10 range check (no state change),
then `abs(guess_value - actual_rating) <= margin`.  On a correct guess the
score is incremented first; with a non-empty pool a replacement is popped
at random, otherwise the session is deleted; a wrong guess reports the
unincremented score and deletes the session. -/
def guessStep (s? : Option GuessSession) (guess_value : ℚ) (rand : Nat) :
    GuessOutcome × Option GuessSession :=
  match s? with
  | none => (GuessOutcome.noSession, none)
  | some session =>
    if guess_value < 0 ∨ guess_value > 10 then
      (GuessOutcome.invalidRange, some session)
    else if pyAbs (guess_value - ratingOf session.current_anime) ≤ margin session.difficulty then
      match popRandom session.anime_pool rand with
      | some (next, pool') =>
        (GuessOutcome.correctNext (session.score + 1) next,
         some { session with
                  score := session.score + 1
                  current_anime := next
                  anime_pool := pool' })
      | none => (GuessOutcome.correctGameOver (session.score + 1), none)
    else
      (GuessOutcome.wrongGameOver session.score, none)

/-- Per-user Higher/Lower session dictionary
(`user_higher_lower_sessions[user_id]`, src/app.py lines 952-957). -/
structure HLSession where
  current_anime : AnimeNode
  next_anime : AnimeNode
  score : Nat
  anime_pool : List AnimeNode
deriving DecidableEq, Inhabited

/-- Directional guess submitted through the Higher/Lower buttons. -/
inductive HLGuess
  | higher
  | lower
deriving DecidableEq, Inhabited

/-- Observable outcome of one Higher/Lower turn. -/
inductive HLOutcome
  | noSession
  | correctNext (streak : Nat) (current next : AnimeNode)
  | correctGameOver (finalStreak : Nat)
  | wrongGameOver (finalStreak : Nat)
deriving DecidableEq, Inhabited

/-- Whether an outcome is the handler's "✓ Correct!" embed. -/
def HLOutcome.isCorrect : HLOutcome → Bool
  | HLOutcome.correctNext _ _ _ => true
  | HLOutcome.correctGameOver _ => true
  | _ => false

/-- Correctness predicate from `_process_higher_lower_guess`
(src/app.py lines 1006-1009):
`(guess == "higher" and next_rating >= current_rating) or
 (guess == "lower" and next_rating <= current_rating)`. -/
def hlIsCorrect (guess : HLGuess) (current_rating next_rating : ℚ) : Bool :=
  (guess == HLGuess.higher && decide (next_rating ≥ current_rating)) ||
  (guess == HLGuess.lower && decide (next_rating ≤ current_rating))

/-- Embedding of `_process_higher_lower_guess` (src/app.py lines 989-1074),
acting on the invoking user's session slot.  On a correct guess the streak
is incremented and the former next record becomes current; with a non-empty
pool a new next record is popped at random, otherwise the session is
deleted; a wrong guess reports the unincremented streak and deletes the
session. -/
def hlStep (s? : Option HLSession) (guess : HLGuess) (rand : Nat) :
    HLOutcome × Option HLSession :=
  match s? with
  | none => (HLOutcome.noSession, none)
  | some session =>
    if hlIsCorrect guess (ratingOf session.current_anime) (ratingOf session.next_anime) then
      match popRandom session.anime_pool rand with
      | some (newNext, pool') =>
        (HLOutcome.correctNext (session.score + 1) session.next_anime newNext,
         some { current_anime := session.next_anime
                next_anime := newNext
                score := session.score + 1
                anime_pool := pool' })
      | none => (HLOutcome.correctGameOver (session.score + 1), none)
    else
      (HLOutcome.wrongGameOver session.score, none)

/-- Records currently held by a Guess-The-Rating session slot: the presented
record followed by the pool. -/
def stateListG : Option GuessSession → List AnimeNode
  | none => []
  | some s => s.current_anime :: s.anime_pool

/-- Records currently held by a Higher/Lower session slot: the two presented
records followed by the pool. -/
def stateListH : Option HLSession → List AnimeNode
  | none => []
  | some s => s.current_anime :: s.next_anime :: s.anime_pool

/-- History bookkeeping for a Guess-The-Rating trace: when a turn draws a
replacement (outcome `correctNext`), the previously presented record is
retired to the history list. -/
def guessHist (hist : List AnimeNode) (s : GuessSession) (o : GuessOutcome) : List AnimeNode :=
  match o with
  | GuessOutcome.correctNext _ _ => hist ++ [s.current_anime]
  | _ => hist

/-- Runs a sequence of `/guess` turns (guess value and random draw per
turn), accumulating the retired records. -/
def guessRunH : List AnimeNode → Option GuessSession → List (ℚ × Nat) →
    List AnimeNode × Option GuessSession
  | hist, s?, [] => (hist, s?)
  | hist, none, _ :: rest => guessRunH hist none rest
  | hist, some s, (g, r) :: rest =>
    guessRunH (guessHist hist s (guessStep (some s) g r).1) (guessStep (some s) g r).2 rest

/-- History bookkeeping for a Higher/Lower trace: a turn that draws a new
next record retires the previously current record. -/
def hlHist (hist : List AnimeNode) (s : HLSession) (o : HLOutcome) : List AnimeNode :=
  match o with
  | HLOutcome.correctNext _ _ _ => hist ++ [s.current_anime]
  | _ => hist

/-- Runs a sequence of Higher/Lower turns, accumulating the retired
records. -/
def hlRunH : List AnimeNode → Option HLSession → List (HLGuess × Nat) →
    List AnimeNode × Option HLSession
  | hist, s?, [] => (hist, s?)
  | hist, none, _ :: rest => hlRunH hist none rest
  | hist, some s, (g, r) :: rest =>
    hlRunH (hlHist hist s (hlStep (some s) g r).1) (hlStep (some s) g r).2 rest

/-- Page size of `PaginationView` (`self.per_page = 10`). -/
def per_page : Nat := 10

/-- State of a `PaginationView` (src/app.py lines 256-381).  `data`,
`title` and `user_id` are set in the constructor and never change;
`current_page` starts at 0 and is mutated by the four buttons.  Display-only
constructor arguments (`profile_url`, `is_ranking`) do not influence any
transition and are omitted. -/
structure PaginationView where
  data : List AnimeNode
  title : String
  user_id : Nat
  current_page : Nat
deriving DecidableEq, Inhabited

/-- Derived page count: `(len(data) + per_page - 1) // per_page`. -/
def PaginationView.total_pages (v : PaginationView) : Nat :=
  (v.data.length + per_page - 1) / per_page

/-- The `◀ Previous` handler (src/app.py lines 325-337).  The non-owner
check at its top calls `defer()` but, unlike the ±5 handlers, does not
`return`, so control falls through to the page mutation for any invoker;
the invoker therefore does not affect the resulting state. -/
def prevButton (_invoker : Nat) (v : PaginationView) : PaginationView :=
  if v.current_page > 0 then { v with current_page := v.current_page - 1 } else v

/-- The `⏮ -5 Pages` handler (src/app.py lines 339-352): non-owners are
deferred and the handler returns with no state change. -/
def prevFiveButton (invoker : Nat) (v : PaginationView) : PaginationView :=
  if invoker ≠ v.user_id then v
  else if v.current_page > 0 then
    { v with current_page := max 0 (v.current_page - 5) }
  else v

/-- The `+5 Pages ⏭` handler (src/app.py lines 354-367): non-owners are
deferred and the handler returns with no state change. -/
def nextFiveButton (invoker : Nat) (v : PaginationView) : PaginationView :=
  if invoker ≠ v.user_id then v
  else if v.current_page < v.total_pages - 1 then
    { v with current_page := min (v.total_pages - 1) (v.current_page + 5) }
  else v

/-- The `Next ▶` handler (src/app.py lines 369-381).  Like `prevButton`,
the non-owner check does not `return`, so the mutation runs for any
invoker. -/
def nextButton (_invoker : Nat) (v : PaginationView) : PaginationView :=
  if v.current_page < v.total_pages - 1 then { v with current_page := v.current_page + 1 } else v

/-- Field budget from `format_anime_embed`: `MAX_FIELD_LEN = 1024`. -/
def MAX_FIELD_LEN : Nat := 1024

/-- Truncation notice from `format_anime_embed` (`FOOTER_TEXT`). -/
def FOOTER_TEXT : String := "…more related anime available on the MyAnimeList page."

/-- One entry of the `related_anime` response list: the node's title and id
plus the edge's `relation_type`. -/
structure RelatedEntry where
  title : String
  id : Nat
  relation_type : String
deriving DecidableEq, Inhabited

/-- Python's `str.replace(old, new)` for a single-character pattern. -/
def pyReplaceChar (s : String) (old new : Char) : String :=
  String.mk (s.data.map fun c => if c = old then new else c)

/-- Character-list worker for `pyTitle`; the flag records whether the
previous character was alphabetic. -/
def pyTitleAux : List Char → Bool → List Char
  | [], _ => []
  | c :: cs, prevAlpha =>
    (if prevAlpha then c.toLower else c.toUpper) :: pyTitleAux cs c.isAlpha

/-- Python's `str.title()` on the alphabetic alphabet: uppercase a letter
that does not follow a letter, lowercase one that does. -/
def pyTitle (s : String) : String :=
  String.mk (pyTitleAux s.data false)

/-- One candidate line of the related-anime listing (src/app.py lines
205-208):
`[{title}](https://myanimelist.net/anime/{id}) ({relation_type.replace('_', ' ').title()}, ID: {id})`. -/
def relatedLine (r : RelatedEntry) : String :=
  "[" ++ r.title ++ "](https://myanimelist.net/anime/" ++ toString r.id ++ ") (" ++
    pyTitle (pyReplaceChar r.relation_type '_' ' ') ++ ", ID: " ++ toString r.id ++ ")"

/-- The enumeration loop of `format_anime_embed` (src/app.py lines
204-218): `projected_length = sum(len(l) + 1 for l in lines) + len(line)`;
when `projected_length + len(FOOTER_TEXT) > MAX_FIELD_LEN` the notice is
appended and enumeration stops, otherwise the line is appended. -/
def buildRelatedLines : List RelatedEntry → List String → List String
  | [], lines => lines
  | r :: rest, lines =>
    if (lines.map fun l => l.length + 1).sum + (relatedLine r).length + FOOTER_TEXT.length >
        MAX_FIELD_LEN then
      lines ++ [FOOTER_TEXT]
    else
      buildRelatedLines rest (lines ++ [relatedLine r])

/-- The assembled `related_anime` field string (src/app.py line 220):
`"\n".join(lines) if lines else "None"`. -/
def relatedStr (related : List RelatedEntry) : String :=
  match buildRelatedLines related [] with
  | [] => "None"
  | lines => String.intercalate "\n" lines

/-- Outcome of a game-start command: which reply the handler sends. -/
inductive StartOutcome
  | invalidDifficulty
  | invalidLimit
  | invalidRankingType
  | couldNotStart
  | started
deriving DecidableEq, Inhabited

/-- Valid difficulty strings for `/guessgame`. -/
def difficultyNames : List String := ["easy", "medium", "hard"]

/-- Valid ranking types for both games. -/
def validTypes : List String := ["bypopularity", "airing", "movie", "favorite"]

/-- Lower-casing and the `"popularity" → "bypopularity"` alias applied to
the ranking-type argument in both game-start handlers. -/
def normRanking (s : String) : String :=
  if pyLower s = "popularity" then "bypopularity" else pyLower s

/-- Conversion of a validated difficulty string to the enum. -/
def parseDifficulty (s : String) : Difficulty :=
  if s = "easy" then Difficulty.easy
  else if s = "medium" then Difficulty.medium
  else Difficulty.hard

/-- Fuel-indexed body of the batched fetch loop shared by both game-start
handlers (src/app.py lines 728-744): while records remain to be requested,
fetch `min remaining 500` at the current offset; stop on a missing/bad
response or a short batch; otherwise advance and continue.  Returns the
accumulated records and the number of upstream calls issued.  Each
iteration consumes at least 1 of `remaining`, so `fuel = remaining` never
runs out. -/
def fetchLoopAux (api : Nat → Nat → Option (List AnimeNode)) :
    Nat → Nat → Nat → List AnimeNode → Nat → List AnimeNode × Nat
  | 0, _, _, acc, calls => (acc, calls)
  | fuel + 1, remaining, offset, acc, calls =>
    if remaining > 0 then
      match api (min remaining 500) offset with
      | none => (acc, calls + 1)
      | some data =>
        if data.length < min remaining 500 then (acc ++ data, calls + 1)
        else
          fetchLoopAux api fuel (remaining - min remaining 500) (offset + min remaining 500)
            (acc ++ data) (calls + 1)
    else (acc, calls)

/-- The batched fetch loop, started with `remaining = limit`, `offset = 0`
and an empty accumulator. -/
def fetchLoop (api : Nat → Nat → Option (List AnimeNode)) (limit : Nat) :
    List AnimeNode × Nat :=
  fetchLoopAux api limit limit 0 [] 0

/-- Embedding of the `/guessgame` start handler (src/app.py lines 686-779)
for the invoking user: validation in source order (difficulty, then the
`limit < 1 or limit > 2500` bound, then ranking type), each rejection
replying before any fetch (0 upstream calls) and without touching the
session slot; then the batched fetch; an empty pool replies "Could not
start game" leaving the slot unchanged; otherwise one record is popped at
random as the opening round and the slot is overwritten with a fresh
session of score 0.  Returns (outcome, upstream calls issued, resulting
session slot). -/
def guessgameStart (api : Nat → Nat → Option (List AnimeNode)) (store : Option GuessSession)
    (difficulty : String) (limit : Int) (ranking_type : String) (rand : Nat) :
    StartOutcome × Nat × Option GuessSession :=
  if pyLower difficulty ∈ difficultyNames then
    if limit < 1 ∨ limit > 2500 then (StartOutcome.invalidLimit, 0, store)
    else if normRanking ranking_type ∈ validTypes then
      match popRandom (fetchLoop api limit.toNat).1 rand with
      | some (cur, pool) =>
        (StartOutcome.started, (fetchLoop api limit.toNat).2,
         some { current_anime := cur
                anime_pool := pool
                score := 0
                difficulty := parseDifficulty (pyLower difficulty) })
      | none => (StartOutcome.couldNotStart, (fetchLoop api limit.toNat).2, store)
    else (StartOutcome.invalidRankingType, 0, store)
  else (StartOutcome.invalidDifficulty, 0, store)

/-- The `if not limit:` defaulting in `/higherlower` (src/app.py lines
890-899): both an absent argument and a supplied `0` are falsy in Python
and are replaced by the default 500. -/
def limitValue (limit : Option Int) : Int :=
  match limit with
  | none => 500
  | some n => if n = 0 then 500 else n

/-- Embedding of the `/higherlower` start handler (src/app.py lines
878-986) for the invoking user: the falsy-default for `limit`, ranking-type
validation, then the `limit_value < 2 or limit_value > 2500` bound, then
the batched fetch; fewer than 2 fetched records reply "Could not start
game" leaving the session slot unchanged; otherwise two records are popped
at random (current, then next from the reduced pool) and the slot is
overwritten with a fresh session of score 0. -/
def higherlowerStart (api : Nat → Nat → Option (List AnimeNode)) (store : Option HLSession)
    (limit : Option Int) (ranking_type : String) (r1 r2 : Nat) :
    StartOutcome × Nat × Option HLSession :=
  if normRanking ranking_type ∈ validTypes then
    if limitValue limit < 2 ∨ limitValue limit > 2500 then (StartOutcome.invalidLimit, 0, store)
    else if (fetchLoop api (limitValue limit).toNat).1.length < 2 then
      (StartOutcome.couldNotStart, (fetchLoop api (limitValue limit).toNat).2, store)
    else
      match popRandom (fetchLoop api (limitValue limit).toNat).1 r1 with
      | some (cur, pool1) =>
        match popRandom pool1 r2 with
        | some (next, pool2) =>
          (StartOutcome.started, (fetchLoop api (limitValue limit).toNat).2,
           some { current_anime := cur
                  next_anime := next
                  score := 0
                  anime_pool := pool2 })
        | none => (StartOutcome.couldNotStart, (fetchLoop api (limitValue limit).toNat).2, store)
      | none => (StartOutcome.couldNotStart, (fetchLoop api (limitValue limit).toNat).2, store)
  else (StartOutcome.invalidRankingType, 0, store)

/-- Example record used in concrete witnesses: rating 5. -/
def exA : AnimeNode := { id := 1, title := "A", mean := some 5, main_picture := none }

/-- Example record used in concrete witnesses: rating 8. -/
def exB : AnimeNode := { id := 2, title := "B", mean := some 8, main_picture := none }

/-- Example record used in concrete witnesses: rating 3. -/
def exC : AnimeNode := { id := 3, title := "C", mean := some 3, main_picture := none }

/-- Example record used in concrete witnesses: no rating. -/
def exD : AnimeNode := { id := 4, title := "D", mean := none, main_picture := none }

/-- A pager over 23 records owned by user 1, currently on page 1 (of 3). -/
def exView : PaginationView :=
  { data := List.replicate 23 exA, title := "t", user_id := 1, current_page := 1 }

/-- Related-anime list realizing the overflow: the first line is 970
characters (919-character title plus 51 characters of fixed syntax), so
appending it is allowed with exactly no slack (970 + 54 = 1024), and the
next candidate forces the notice, making the joined field
970 + 1 + 54 = 1025 characters. -/
def overflowRelated : List RelatedEntry :=
  [ { title := String.mk (List.replicate 919 'a'), id := 1, relation_type := "sequel" },
    { title := "b", id := 2, relation_type := "sequel" } ]

/-- Upstream oracle returning two records on every call. -/
def exApiTwo : Nat → Nat → Option (List AnimeNode) :=
  fun _ _ => some [exA, exB]

/-- Upstream oracle failing every call. -/
def exApiNone : Nat → Nat → Option (List AnimeNode) :=
  fun _ _ => none

/-- Session used in Guess-The-Rating witnesses: presented record `exA`
(rating 5), one record left in the pool, score 3, medium difficulty. -/
def exGuessSession : GuessSession :=
  { current_anime := exA, anime_pool := [exB], score := 3, difficulty := Difficulty.medium }

/-- Record with rating 15/2, the spec's boundary example. -/
def exW : AnimeNode := { id := 9, title := "W", mean := some (15/2), main_picture := none }

/-- Session presenting `exW` on medium difficulty with an empty pool. -/
def exWSession : GuessSession :=
  { current_anime := exW, anime_pool := [], score := 0, difficulty := Difficulty.medium }

/-- Record with rating 8 and id 7, used for the Higher/Lower tie witness. -/
def exE : AnimeNode := { id := 7, title := "E", mean := some 8, main_picture := none }

/-- Higher/Lower session whose current and next records are both rated 8. -/
def exTieSession : HLSession :=
  { current_anime := exB, next_anime := exE, score := 2, anime_pool := [exC] }

/-- Higher/Lower session with an empty pool (current rated 8, next rated 8). -/
def exEmptyHL : HLSession :=
  { current_anime := exB, next_anime := exE, score := 0, anime_pool := [] }

/-- State reached from `exGuessSession` after one correct guess. -/
def exGFinal : GuessSession :=
  { current_anime := exB, anime_pool := [], score := 4, difficulty := Difficulty.medium }

/-- State reached from `exTieSession` after one correct higher press. -/
def exHFinal : HLSession :=
  { current_anime := exE, next_anime := exC, score := 3, anime_pool := [] }

theorem pyAbs_eq_abs (q : ℚ) : pyAbs q = |q| := by
  unfold pyAbs
  rcases lt_or_le q 0 with h | h
  · rw [if_pos h, abs_of_neg h]
  · rw [if_neg (not_lt.mpr h), abs_of_nonneg h]

theorem cons_eraseIdx_perm {α : Type} :
    ∀ (l : List α) (j : Nat) (a : α), l[j]? = some a → (a :: l.eraseIdx j).Perm l := by
  intro l
  induction l with
  | nil => intro j a h; simp at h
  | cons b t ih =>
    intro j a h
    cases j with
    | zero =>
      simp only [List.getElem?_cons_zero, Option.some.injEq] at h
      subst h
      simp [List.eraseIdx]
    | succ j =>
      simp only [List.getElem?_cons_succ] at h
      have hperm := ih j a h
      simpa [List.eraseIdx] using (List.Perm.swap b a (t.eraseIdx j)).trans (hperm.cons b)

theorem popRandom_sound (pool : List AnimeNode) (r : Nat) (a : AnimeNode)
    (pool' : List AnimeNode) (h : popRandom pool r = some (a, pool')) :
    pool.length = pool'.length + 1 ∧ (a :: pool').Perm pool := by
  unfold popRandom at h
  cases hg : pool[r % pool.length]? with
  | none => rw [hg] at h; cases h
  | some b =>
    rw [hg] at h
    obtain ⟨rfl, rfl⟩ := Prod.mk.injEq .. ▸ Option.some.injEq .. ▸ h
    have hlt : r % pool.length < pool.length := by
      by_contra hge
      rw [List.getElem?_eq_none (by omega)] at hg
      cases hg
    refine ⟨?_, cons_eraseIdx_perm _ _ _ hg⟩
    have := List.length_eraseIdx_add_one hlt
    omega

theorem popRandom_nil (r : Nat) : popRandom [] r = none := rfl

theorem guessStep_state_nodup (s : GuessSession) (g : ℚ) (r : Nat) (hist : List AnimeNode)
    (h : (hist ++ stateListG (some s)).Nodup) :
    (guessHist hist s (guessStep (some s) g r).1 ++
      stateListG (guessStep (some s) g r).2).Nodup := by
  have hh : hist.Nodup := h.of_append_left
  by_cases hr : g < 0 ∨ g > 10
  · simpa [guessStep, if_pos hr, guessHist] using h
  · by_cases hc : pyAbs (g - ratingOf s.current_anime) ≤ margin s.difficulty
    · cases hpop : popRandom s.anime_pool r with
      | none =>
        simpa [guessStep, if_neg hr, if_pos hc, hpop, guessHist, stateListG] using hh
      | some p =>
        obtain ⟨a, pool'⟩ := p
        have hperm := (popRandom_sound _ _ _ _ hpop).2
        simp only [guessStep, if_neg hr, if_pos hc, hpop, guessHist, stateListG]
        have hperm2 : ((hist ++ [s.current_anime]) ++ a :: pool').Perm
            (hist ++ s.current_anime :: s.anime_pool) := by
          have hstep : ((hist ++ [s.current_anime]) ++ a :: pool')
              = hist ++ s.current_anime :: a :: pool' := by simp
          rw [hstep]
          exact List.Perm.append_left hist (hperm.cons s.current_anime)
        exact hperm2.symm.nodup (by simpa [stateListG] using h)
    · simpa [guessStep, if_neg hr, if_neg hc, guessHist, stateListG] using hh

theorem guessRunH_nodup :
    ∀ (inputs : List (ℚ × Nat)) (hist : List AnimeNode) (s? : Option GuessSession),
      (hist ++ stateListG s?).Nodup →
      ((guessRunH hist s? inputs).1 ++ stateListG (guessRunH hist s? inputs).2).Nodup := by
  intro inputs
  induction inputs with
  | nil => intro hist s? h; simpa [guessRunH] using h
  | cons p rest ih =>
    intro hist s? h
    obtain ⟨g, r⟩ := p
    cases s? with
    | none => exact ih hist none h
    | some s =>
      show ((guessRunH (guessHist hist s (guessStep (some s) g r).1)
        (guessStep (some s) g r).2 rest).1 ++ _).Nodup
      exact ih _ _ (guessStep_state_nodup s g r hist h)

theorem hlStep_state_nodup (s : HLSession) (g : HLGuess) (r : Nat) (hist : List AnimeNode)
    (h : (hist ++ stateListH (some s)).Nodup) :
    (hlHist hist s (hlStep (some s) g r).1 ++ stateListH (hlStep (some s) g r).2).Nodup := by
  have hh : hist.Nodup := h.of_append_left
  cases hc : hlIsCorrect g (ratingOf s.current_anime) (ratingOf s.next_anime) with
  | false => simpa [hlStep, hc, hlHist, stateListH] using hh
  | true =>
    cases hpop : popRandom s.anime_pool r with
    | none => simpa [hlStep, hc, hpop, hlHist, stateListH] using hh
    | some p =>
      obtain ⟨a, pool'⟩ := p
      have hperm := (popRandom_sound _ _ _ _ hpop).2
      simp only [hlStep, hc, hpop, if_true, hlHist, stateListH]
      have hperm2 : ((hist ++ [s.current_anime]) ++ s.next_anime :: a :: pool').Perm
          (hist ++ s.current_anime :: s.next_anime :: s.anime_pool) := by
        have hstep : ((hist ++ [s.current_anime]) ++ s.next_anime :: a :: pool')
            = hist ++ s.current_anime :: s.next_anime :: a :: pool' := by simp
        rw [hstep]
        exact List.Perm.append_left hist (((hperm.cons s.next_anime)).cons s.current_anime)
      exact hperm2.symm.nodup (by simpa [stateListH] using h)

theorem hlRunH_nodup :
    ∀ (inputs : List (HLGuess × Nat)) (hist : List AnimeNode) (s? : Option HLSession),
      (hist ++ stateListH s?).Nodup →
      ((hlRunH hist s? inputs).1 ++ stateListH (hlRunH hist s? inputs).2).Nodup := by
  intro inputs
  induction inputs with
  | nil => intro hist s? h; simpa [hlRunH] using h
  | cons p rest ih =>
    intro hist s? h
    obtain ⟨g, r⟩ := p
    cases s? with
    | none => exact ih hist none h
    | some s =>
      show ((hlRunH (hlHist hist s (hlStep (some s) g r).1)
        (hlStep (some s) g r).2 rest).1 ++ _).Nodup
      exact ih _ _ (hlStep_state_nodup s g r hist h)

/-- C7: for every pager state with `current_page` in `[0, total_pages - 1]`
and every transition by the originating user, the resulting page is the
clamped delta — `prev` subtracts 1 saturating at 0 (Nat subtraction),
`prevFive` subtracts 5 saturating at 0, `nextFive` adds 5 saturating at
`total_pages - 1`, `next` adds 1 saturating at `total_pages - 1` — and every
result stays inside `[0, total_pages - 1]`. -/
theorem pager_transitions_clamped (v : PaginationView) (u : Nat)
    (hu : u = v.user_id) (hv : v.current_page < v.total_pages) :
    (prevButton u v).current_page = v.current_page - 1 ∧
    (prevFiveButton u v).current_page = v.current_page - 5 ∧
    (nextFiveButton u v).current_page = min (v.total_pages - 1) (v.current_page + 5) ∧
    (nextButton u v).current_page = min (v.total_pages - 1) (v.current_page + 1) ∧
    (prevButton u v).current_page < v.total_pages ∧
    (prevFiveButton u v).current_page < v.total_pages ∧
    (nextFiveButton u v).current_page < v.total_pages ∧
    (nextButton u v).current_page < v.total_pages := by
  subst hu
  have h1 : (prevButton v.user_id v).current_page = v.current_page - 1 := by
    unfold prevButton
    split <;> (try simp) <;> omega
  have h2 : (prevFiveButton v.user_id v).current_page = v.current_page - 5 := by
    unfold prevFiveButton
    rw [if_neg (by simp)]
    split <;> (try simp) <;> omega
  have h3 : (nextFiveButton v.user_id v).current_page
      = min (v.total_pages - 1) (v.current_page + 5) := by
    unfold nextFiveButton
    rw [if_neg (by simp)]
    split <;> (try simp) <;> omega
  have h4 : (nextButton v.user_id v).current_page
      = min (v.total_pages - 1) (v.current_page + 1) := by
    unfold nextButton
    split <;> (try simp) <;> omega
  refine ⟨h1, h2, h3, h4, ?_, ?_, ?_, ?_⟩ <;> omega

/-- Closed instance of `pager_transitions_clamped` at a pager over 23
records (3 pages of 10): from page 1 the owner's transitions give pages
0, 0, 2, 2, matching the clamp formulas. -/
theorem pager_transitions_clamped_witness :
    1 = exView.user_id ∧ exView.current_page < exView.total_pages ∧
    (prevButton 1 exView).current_page = exView.current_page - 1 ∧
    (prevFiveButton 1 exView).current_page = exView.current_page - 5 ∧
    (nextFiveButton 1 exView).current_page
      = min (exView.total_pages - 1) (exView.current_page + 5) ∧
    (nextButton 1 exView).current_page
      = min (exView.total_pages - 1) (exView.current_page + 1) ∧
    (prevButton 1 exView).current_page < exView.total_pages ∧
    (prevFiveButton 1 exView).current_page < exView.total_pages ∧
    (nextFiveButton 1 exView).current_page < exView.total_pages ∧
    (nextButton 1 exView).current_page < exView.total_pages := by
  refine ⟨by decide, by decide, ?_⟩
  have h := pager_transitions_clamped exView 1 (by decide) (by decide)
  exact ⟨h.1, h.2.1, h.2.2.1, h.2.2.2.1, h.2.2.2.2.1, h.2.2.2.2.2.1,
    h.2.2.2.2.2.2.1, h.2.2.2.2.2.2.2⟩

/-- C3: for every active Guess-The-Rating session and every in-range guess
whose absolute distance from the presented record's rating exceeds the
difficulty margin, the handler reports the final (unincremented) score and
deletes the session — whatever the remaining pool — and a subsequent guess
finds no session and yields the start-a-game reply. -/
theorem wrong_guess_deletes_session (s : GuessSession) (g : ℚ) (r : Nat)
    (h0 : 0 ≤ g) (h10 : g ≤ 10)
    (hm : margin s.difficulty < |g - ratingOf s.current_anime|)
    (g' : ℚ) (r' : Nat) :
    guessStep (some s) g r = (GuessOutcome.wrongGameOver s.score, none) ∧
    guessStep none g' r' = (GuessOutcome.noSession, none) := by
  refine ⟨?_, rfl⟩
  have hr : ¬(g < 0 ∨ g > 10) := by push_neg; exact ⟨h0, h10⟩
  rw [← pyAbs_eq_abs] at hm
  simp [guessStep, hr, not_le.mpr hm]

/-- Closed instance of `wrong_guess_deletes_session`: guessing 9 against
rating 5 on medium (margin 1/4) with a non-empty pool reports score 3 and
deletes the session; a following guess gets the no-session reply. -/
theorem wrong_guess_deletes_session_witness :
    (0 : ℚ) ≤ 9 ∧ (9 : ℚ) ≤ 10 ∧
    margin exGuessSession.difficulty < |(9 : ℚ) - ratingOf exGuessSession.current_anime| ∧
    (guessStep (some exGuessSession) 9 0
        = (GuessOutcome.wrongGameOver exGuessSession.score, none) ∧
      guessStep none 7 1 = (GuessOutcome.noSession, none)) := by
  have hm : margin exGuessSession.difficulty
      < |(9 : ℚ) - ratingOf exGuessSession.current_anime| := by
    rw [← pyAbs_eq_abs]
    norm_num [margin, ratingOf, exA, exGuessSession, pyAbs]
  exact ⟨by norm_num, by norm_num, hm,
    wrong_guess_deletes_session exGuessSession 9 0 (by norm_num) (by norm_num) hm 7 1⟩

theorem guessStep_isCorrect (s : GuessSession) (g : ℚ) (r : Nat) (hr : ¬(g < 0 ∨ g > 10)) :
    (guessStep (some s) g r).1.isCorrect
      = decide (pyAbs (g - ratingOf s.current_anime) ≤ margin s.difficulty) := by
  by_cases hc : pyAbs (g - ratingOf s.current_anime) ≤ margin s.difficulty
  · cases hpop : popRandom s.anime_pool r with
    | none => simp [guessStep, hr, hc, hpop, GuessOutcome.isCorrect]
    | some p =>
      obtain ⟨a, pool'⟩ := p
      simp [guessStep, hr, hc, hpop, GuessOutcome.isCorrect]
  · simp [guessStep, hr, hc, GuessOutcome.isCorrect]

/-- C4: for every active session with the three difficulties and every
guess in `[0, 10]`, the margins are exactly 0.5 / 0.25 / 0.1 and the guess
is judged correct if and only if `|g - rating| ≤ margin` — in particular the
boundary is inclusive. -/
theorem guess_judged_correct_iff (s : GuessSession) (g : ℚ) (r : Nat)
    (h0 : 0 ≤ g) (h10 : g ≤ 10) :
    (margin Difficulty.easy = 1/2 ∧ margin Difficulty.medium = 1/4 ∧
      margin Difficulty.hard = 1/10) ∧
    ((guessStep (some s) g r).1.isCorrect = true ↔
      |g - ratingOf s.current_anime| ≤ margin s.difficulty) := by
  have hr : ¬(g < 0 ∨ g > 10) := by push_neg; exact ⟨h0, h10⟩
  refine ⟨⟨rfl, rfl, rfl⟩, ?_⟩
  rw [guessStep_isCorrect s g r hr, ← pyAbs_eq_abs]
  exact decide_eq_true_iff

/-- Closed instance of `guess_judged_correct_iff` at the spec's boundary
example: medium margin 1/4, rating 15/2, guess 29/4 is exactly
margin-distant and is judged correct. -/
theorem guess_judged_correct_iff_witness :
    (0 : ℚ) ≤ 29/4 ∧ (29 : ℚ)/4 ≤ 10 ∧
    (margin Difficulty.easy = 1/2 ∧ margin Difficulty.medium = 1/4 ∧
      margin Difficulty.hard = 1/10) ∧
    ((guessStep (some exWSession) (29/4) 0).1.isCorrect = true ↔
      |(29 : ℚ)/4 - ratingOf exWSession.current_anime| ≤ margin exWSession.difficulty) := by
  refine ⟨by norm_num, by norm_num, ?_⟩
  exact guess_judged_correct_iff exWSession (29/4) 0 (by norm_num) (by norm_num)

theorem hlStep_isCorrect (s : HLSession) (g : HLGuess) (r : Nat) :
    (hlStep (some s) g r).1.isCorrect
      = hlIsCorrect g (ratingOf s.current_anime) (ratingOf s.next_anime) := by
  cases hc : hlIsCorrect g (ratingOf s.current_anime) (ratingOf s.next_anime) with
  | false => simp [hlStep, hc, HLOutcome.isCorrect]
  | true =>
    cases hpop : popRandom s.anime_pool r with
    | none => simp [hlStep, hc, hpop, HLOutcome.isCorrect]
    | some p =>
      obtain ⟨a, pool'⟩ := p
      simp [hlStep, hc, hpop, HLOutcome.isCorrect]

/-- C5: a Higher/Lower turn on an active session is judged correct exactly
when `higher` is submitted and the next rating is ≥ the current one, or
`lower` is submitted and the next rating is ≤ the current one; with equal
ratings both directions are judged correct. -/
theorem hl_turn_judged (s : HLSession) (r : Nat) :
    ((hlStep (some s) HLGuess.higher r).1.isCorrect = true ↔
      ratingOf s.current_anime ≤ ratingOf s.next_anime) ∧
    ((hlStep (some s) HLGuess.lower r).1.isCorrect = true ↔
      ratingOf s.next_anime ≤ ratingOf s.current_anime) ∧
    (ratingOf s.current_anime = ratingOf s.next_anime →
      (hlStep (some s) HLGuess.higher r).1.isCorrect = true ∧
      (hlStep (some s) HLGuess.lower r).1.isCorrect = true) := by
  rw [hlStep_isCorrect s HLGuess.higher r, hlStep_isCorrect s HLGuess.lower r]
  refine ⟨?_, ?_, ?_⟩
  · simp [hlIsCorrect, ge_iff_le]
  · simp [hlIsCorrect]
  · intro heq
    constructor <;> simp [hlIsCorrect, heq]

/-- Closed instance of `hl_turn_judged` on a session whose current and next
records both have rating 8: both button presses are judged correct, and the
directional iffs hold at this session. -/
theorem hl_turn_judged_witness :
    ((hlStep (some exTieSession) HLGuess.higher 0).1.isCorrect = true ↔
      ratingOf exTieSession.current_anime ≤ ratingOf exTieSession.next_anime) ∧
    ((hlStep (some exTieSession) HLGuess.lower 0).1.isCorrect = true ↔
      ratingOf exTieSession.next_anime ≤ ratingOf exTieSession.current_anime) ∧
    ((hlStep (some exTieSession) HLGuess.higher 0).1.isCorrect = true ∧
      (hlStep (some exTieSession) HLGuess.lower 0).1.isCorrect = true) := by
  have h := hl_turn_judged exTieSession 0
  exact ⟨h.1, h.2.1, h.2.2 rfl⟩

/-- C9: in both games a correct guess increments the score before the
pool-emptiness check, so a correct guess on an empty pool reports final
score (resp. streak) `score + 1` and then deletes the session. -/
theorem last_correct_guess_counted (s : GuessSession) (g : ℚ) (r : Nat)
    (hpool : s.anime_pool = []) (h0 : 0 ≤ g) (h10 : g ≤ 10)
    (hm : |g - ratingOf s.current_anime| ≤ margin s.difficulty)
    (t : HLSession) (d : HLGuess) (q : Nat) (hpoolt : t.anime_pool = [])
    (hct : hlIsCorrect d (ratingOf t.current_anime) (ratingOf t.next_anime) = true) :
    guessStep (some s) g r = (GuessOutcome.correctGameOver (s.score + 1), none) ∧
    hlStep (some t) d q = (HLOutcome.correctGameOver (t.score + 1), none) := by
  have hr : ¬(g < 0 ∨ g > 10) := by push_neg; exact ⟨h0, h10⟩
  rw [← pyAbs_eq_abs] at hm
  constructor
  · simp [guessStep, hr, hm, hpool, popRandom_nil]
  · simp [hlStep, hct, hpoolt, popRandom_nil]

/-- Closed instance of `last_correct_guess_counted`: a correct guess (5 at
rating 5) on an empty-pool session of score 0 ends with final score 1, and
a correct higher press on an empty-pool tie session of score 0 ends with
final streak 1. -/
theorem last_correct_guess_counted_witness :
    exWSession.anime_pool = [] ∧ (0 : ℚ) ≤ 15/2 ∧ (15 : ℚ)/2 ≤ 10 ∧
    |(15 : ℚ)/2 - ratingOf exWSession.current_anime| ≤ margin exWSession.difficulty ∧
    exEmptyHL.anime_pool = [] ∧
    hlIsCorrect HLGuess.higher (ratingOf exEmptyHL.current_anime)
      (ratingOf exEmptyHL.next_anime) = true ∧
    (guessStep (some exWSession) (15/2) 0
        = (GuessOutcome.correctGameOver (exWSession.score + 1), none) ∧
      hlStep (some exEmptyHL) HLGuess.higher 0
        = (HLOutcome.correctGameOver (exEmptyHL.score + 1), none)) := by
  have hm : |(15 : ℚ)/2 - ratingOf exWSession.current_anime|
      ≤ margin exWSession.difficulty := by
    rw [← pyAbs_eq_abs]
    norm_num [pyAbs, ratingOf, exWSession, exW, margin]
  have hct : hlIsCorrect HLGuess.higher (ratingOf exEmptyHL.current_anime)
      (ratingOf exEmptyHL.next_anime) = true := by
    norm_num [hlIsCorrect, ratingOf, exEmptyHL, exB, exE]
  exact ⟨rfl, by norm_num, by norm_num, hm, rfl, hct,
    last_correct_guess_counted exWSession (15/2) 0 rfl (by norm_num) (by norm_num) hm
      exEmptyHL HLGuess.higher 0 rfl hct⟩

/-- C1 (violated by the source): on a pager owned by user 1 sitting on page
1, an interaction by user 2 changes the state — `prev_button` moves the
page to 0 and `next_button` moves it to 2 — because those two handlers lack
the early return after the non-owner `defer()`; the ±5 handlers do return
and are no-ops for non-owners. -/
theorem unauthorized_prev_next_mutate :
    2 ≠ exView.user_id ∧
    prevButton 2 exView ≠ exView ∧
    (prevButton 2 exView).current_page = 0 ∧
    (nextButton 2 exView).current_page = 2 ∧
    prevFiveButton 2 exView = exView ∧
    nextFiveButton 2 exView = exView := by
  decide

set_option maxRecDepth 8000 in
/-- C2 (violated by the source): on `overflowRelated` the assembled
related-anime field is 1025 characters, one more than `MAX_FIELD_LEN`: the
projected-length check counts a newline after every existing line but
misses the newline `join` inserts between the last kept line and the
appended notice. -/
theorem relatedStr_exceeds_budget :
    (relatedStr overflowRelated).length = 1025 ∧
    MAX_FIELD_LEN < (relatedStr overflowRelated).length := by
  have h : (relatedStr overflowRelated).length = 1025 := by rfl
  exact ⟨h, by rw [h]; decide⟩

/-- C8 (violated by the source for Higher/Lower): a supplied pool size of 0
is outside [2, 2500], yet `/higherlower` does not reject it — `if not
limit:` treats the falsy 0 as absent and substitutes the default 500 — so
with an upstream returning two records the game starts: one upstream fetch
is issued and the session slot is overwritten. -/
theorem higherlower_zero_limit_not_rejected :
    ((0 : Int) < 2 ∨ (0 : Int) > 2500) ∧
    higherlowerStart exApiTwo none (some 0) "bypopularity" 0 0
      = (StartOutcome.started, 1,
         some { current_anime := exA, next_anime := exB, score := 0, anime_pool := [] }) := by
  exact ⟨Or.inl (by norm_num), by rfl⟩

/-- C6: for both games, a successful draw removes exactly one element from
the pool (the popped record plus the remainder permute the old pool, so the
length drops by exactly 1); along any trace from a session whose records
are pairwise distinct, the retired-record history together with the final
state stays duplicate-free — hence no record is drawn twice and the pool
never contains a currently presented record — and a correct outcome on an
empty pool deletes the session. -/
theorem game_pool_draw_invariants
    (s0 : GuessSession) (inputs : List (ℚ × Nat))
    (h0 : (s0.current_anime :: s0.anime_pool).Nodup)
    (sF : GuessSession) (hF : (guessRunH [] (some s0) inputs).2 = some sF)
    (t0 : HLSession) (hinputs : List (HLGuess × Nat))
    (ht0 : (t0.current_anime :: t0.next_anime :: t0.anime_pool).Nodup)
    (tF : HLSession) (htF : (hlRunH [] (some t0) hinputs).2 = some tF)
    (pool : List AnimeNode) (r : Nat) (a : AnimeNode) (pool' : List AnimeNode)
    (hpop : popRandom pool r = some (a, pool'))
    (s1 : GuessSession) (g1 : ℚ) (r1 : Nat) (hp1 : s1.anime_pool = [])
    (hc1 : (guessStep (some s1) g1 r1).1.isCorrect = true)
    (t1 : HLSession) (d1 : HLGuess) (q1 : Nat) (hp2 : t1.anime_pool = [])
    (hc2 : (hlStep (some t1) d1 q1).1.isCorrect = true) :
    ((guessRunH [] (some s0) inputs).1 ++ sF.current_anime :: sF.anime_pool).Nodup ∧
    sF.current_anime ∉ sF.anime_pool ∧
    ((hlRunH [] (some t0) hinputs).1
        ++ tF.current_anime :: tF.next_anime :: tF.anime_pool).Nodup ∧
    tF.current_anime ∉ tF.anime_pool ∧ tF.next_anime ∉ tF.anime_pool ∧
    pool.length = pool'.length + 1 ∧
    (a :: pool').Perm pool ∧
    (guessStep (some s1) g1 r1).2 = none ∧
    (hlStep (some t1) d1 q1).2 = none := by
  have hrunG := guessRunH_nodup inputs [] (some s0) (by simpa [stateListG] using h0)
  rw [hF] at hrunG
  simp only [stateListG] at hrunG
  have hrunH := hlRunH_nodup hinputs [] (some t0) (by simpa [stateListH] using ht0)
  rw [htF] at hrunH
  simp only [stateListH] at hrunH
  have hcurG : sF.current_anime ∉ sF.anime_pool :=
    (List.nodup_cons.mp hrunG.of_append_right).1
  have hconsH := hrunH.of_append_right
  have hcurH : tF.current_anime ∉ tF.anime_pool := by
    have := (List.nodup_cons.mp hconsH).1
    intro hmem
    exact this (List.mem_cons_of_mem _ hmem)
  have hnextH : tF.next_anime ∉ tF.anime_pool :=
    (List.nodup_cons.mp (List.nodup_cons.mp hconsH).2).1
  have hend1 : (guessStep (some s1) g1 r1).2 = none := by
    by_cases hr : g1 < 0 ∨ g1 > 10
    · simp [guessStep, hr, GuessOutcome.isCorrect] at hc1
    · by_cases hcm : pyAbs (g1 - ratingOf s1.current_anime) ≤ margin s1.difficulty
      · simp [guessStep, hr, hcm, hp1, popRandom_nil]
      · simp [guessStep, hr, hcm]
  have hend2 : (hlStep (some t1) d1 q1).2 = none := by
    cases hhl : hlIsCorrect d1 (ratingOf t1.current_anime) (ratingOf t1.next_anime) with
    | true => simp [hlStep, hhl, hp2, popRandom_nil]
    | false => simp [hlStep, hhl]
  obtain ⟨hlen, hperm⟩ := popRandom_sound pool r a pool' hpop
  exact ⟨hrunG, hcurG, hrunH, hcurH, hnextH, hlen, hperm, hend1, hend2⟩

/-- Closed instance of `game_pool_draw_invariants`: one correct turn of each
game from duplicate-free two/three-record sessions, a concrete draw from a
singleton pool, and correct guesses on empty-pool sessions of both kinds. -/
theorem game_pool_draw_invariants_witness :
    (exGuessSession.current_anime :: exGuessSession.anime_pool).Nodup ∧
    (guessRunH [] (some exGuessSession) [(5, 0)]).2 = some exGFinal ∧
    (exTieSession.current_anime :: exTieSession.next_anime ::
      exTieSession.anime_pool).Nodup ∧
    (hlRunH [] (some exTieSession) [(HLGuess.higher, 0)]).2 = some exHFinal ∧
    popRandom [exA] 0 = some (exA, []) ∧
    exWSession.anime_pool = [] ∧
    (guessStep (some exWSession) (15/2) 0).1.isCorrect = true ∧
    exEmptyHL.anime_pool = [] ∧
    (hlStep (some exEmptyHL) HLGuess.higher 0).1.isCorrect = true ∧
    (((guessRunH [] (some exGuessSession) [(5, 0)]).1
        ++ exGFinal.current_anime :: exGFinal.anime_pool).Nodup ∧
      exGFinal.current_anime ∉ exGFinal.anime_pool ∧
      ((hlRunH [] (some exTieSession) [(HLGuess.higher, 0)]).1
        ++ exHFinal.current_anime :: exHFinal.next_anime :: exHFinal.anime_pool).Nodup ∧
      exHFinal.current_anime ∉ exHFinal.anime_pool ∧
      exHFinal.next_anime ∉ exHFinal.anime_pool ∧
      ([exA] : List AnimeNode).length = ([] : List AnimeNode).length + 1 ∧
      ((exA :: ([] : List AnimeNode)).Perm [exA]) ∧
      (guessStep (some exWSession) (15/2) 0).2 = none ∧
      (hlStep (some exEmptyHL) HLGuess.higher 0).2 = none) := by
  have hcond : ¬((5 : ℚ) < 0 ∨ (5 : ℚ) > 10) := by norm_num
  have hc : pyAbs ((5 : ℚ) - ratingOf exA) ≤ margin Difficulty.medium := by
    norm_num [pyAbs, ratingOf, exA, margin]
  have hF : (guessRunH [] (some exGuessSession) [(5, 0)]).2 = some exGFinal := by
    simp [guessRunH, guessStep, hcond, hc, popRandom, exGuessSession, exGFinal, guessHist]
  have hcond2 : ¬((15 : ℚ)/2 < 0 ∨ (15 : ℚ)/2 > 10) := by norm_num
  have hcW : pyAbs ((15 : ℚ)/2 - ratingOf exWSession.current_anime)
      ≤ margin exWSession.difficulty := by
    norm_num [pyAbs, ratingOf, exWSession, exW, margin]
  have hc1 : (guessStep (some exWSession) (15/2) 0).1.isCorrect = true := by
    rw [guessStep_isCorrect exWSession (15/2) 0 hcond2]
    rw [decide_eq_true_iff]
    exact hcW
  refine ⟨by decide, hF, by decide, by decide, rfl, rfl, hc1, rfl, by decide, ?_⟩
  exact game_pool_draw_invariants exGuessSession [(5, 0)] (by decide) exGFinal hF
    exTieSession [(HLGuess.higher, 0)] (by decide) exHFinal (by decide)
    [exA] 0 exA [] rfl
    exWSession (15/2) 0 rfl hc1
    exEmptyHL HLGuess.higher 0 rfl (by decide)

/-- C10: a validated game start whose batched fetches collect no records
(fewer than 2 for Higher/Lower) replies could-not-start and leaves the
invoking user's session slot exactly as it was — a previously active
session of the same kind survives — and, for arbitrary start requests of
either game, the slot differs from its prior value only when the outcome is
`started`, i.e. only after a pool was successfully assembled. -/
theorem failed_start_preserves_sessions
    (api : Nat → Nat → Option (List AnimeNode)) (store : Option GuessSession)
    (d : String) (lim : Int) (rt : String) (rand : Nat)
    (hd : pyLower d ∈ difficultyNames)
    (hlim : ¬(lim < 1 ∨ lim > 2500))
    (hrt : normRanking rt ∈ validTypes)
    (hempty : (fetchLoop api lim.toNat).1 = [])
    (api2 : Nat → Nat → Option (List AnimeNode)) (store2 : Option HLSession)
    (lim2 : Option Int) (rt2 : String) (r1 r2 : Nat)
    (hrt2 : normRanking rt2 ∈ validTypes)
    (hlim2 : ¬(limitValue lim2 < 2 ∨ limitValue lim2 > 2500))
    (hshort : (fetchLoop api2 (limitValue lim2).toNat).1.length < 2)
    (api3 : Nat → Nat → Option (List AnimeNode)) (store3 : Option GuessSession)
    (d3 : String) (lim3 : Int) (rt3 : String) (rand3 : Nat)
    (api4 : Nat → Nat → Option (List AnimeNode)) (store4 : Option HLSession)
    (lim4 : Option Int) (rt4 : String) (p1 p2 : Nat) :
    (guessgameStart api store d lim rt rand).1 = StartOutcome.couldNotStart ∧
    (guessgameStart api store d lim rt rand).2.2 = store ∧
    (higherlowerStart api2 store2 lim2 rt2 r1 r2).1 = StartOutcome.couldNotStart ∧
    (higherlowerStart api2 store2 lim2 rt2 r1 r2).2.2 = store2 ∧
    ((guessgameStart api3 store3 d3 lim3 rt3 rand3).2.2 = store3 ∨
      (guessgameStart api3 store3 d3 lim3 rt3 rand3).1 = StartOutcome.started) ∧
    ((higherlowerStart api4 store4 lim4 rt4 p1 p2).2.2 = store4 ∨
      (higherlowerStart api4 store4 lim4 rt4 p1 p2).1 = StartOutcome.started) := by
  have hg : guessgameStart api store d lim rt rand
      = (StartOutcome.couldNotStart, (fetchLoop api lim.toNat).2, store) := by
    rw [guessgameStart, if_pos hd, if_neg hlim, if_pos hrt, hempty]
    rfl
  have hh : higherlowerStart api2 store2 lim2 rt2 r1 r2
      = (StartOutcome.couldNotStart, (fetchLoop api2 (limitValue lim2).toNat).2, store2) := by
    rw [higherlowerStart, if_pos hrt2, if_neg hlim2, if_pos hshort]
  refine ⟨by rw [hg], by rw [hg], by rw [hh], by rw [hh], ?_, ?_⟩
  · unfold guessgameStart
    split
    · split
      · exact Or.inl rfl
      · split
        · split
          · exact Or.inr rfl
          · exact Or.inl rfl
        · exact Or.inl rfl
    · exact Or.inl rfl
  · unfold higherlowerStart
    split
    · split
      · exact Or.inl rfl
      · split
        · exact Or.inl rfl
        · split
          · split
            · exact Or.inr rfl
            · exact Or.inl rfl
          · exact Or.inl rfl
    · exact Or.inl rfl

/-- Closed instance of `failed_start_preserves_sessions`: with an upstream
failing every call, valid `/guessgame` and `/higherlower` starts report
could-not-start and the prior sessions (`exGuessSession`, `exTieSession`)
survive; the replaced-only-on-start disjunction is instantiated at the same
requests. -/
theorem failed_start_preserves_sessions_witness :
    pyLower "Medium" ∈ difficultyNames ∧
    ¬((500 : Int) < 1 ∨ (500 : Int) > 2500) ∧
    normRanking "Popularity" ∈ validTypes ∧
    (fetchLoop exApiNone (500 : Int).toNat).1 = [] ∧
    normRanking "airing" ∈ validTypes ∧
    ¬(limitValue (some 700) < 2 ∨ limitValue (some 700) > 2500) ∧
    (fetchLoop exApiNone (limitValue (some 700)).toNat).1.length < 2 ∧
    ((guessgameStart exApiNone (some exGuessSession) "Medium" 500 "Popularity" 0).1
        = StartOutcome.couldNotStart ∧
      (guessgameStart exApiNone (some exGuessSession) "Medium" 500 "Popularity" 0).2.2
        = some exGuessSession ∧
      (higherlowerStart exApiNone (some exTieSession) (some 700) "airing" 0 0).1
        = StartOutcome.couldNotStart ∧
      (higherlowerStart exApiNone (some exTieSession) (some 700) "airing" 0 0).2.2
        = some exTieSession ∧
      ((guessgameStart exApiNone (some exGuessSession) "Medium" 500 "Popularity" 0).2.2
          = some exGuessSession ∨
        (guessgameStart exApiNone (some exGuessSession) "Medium" 500 "Popularity" 0).1
          = StartOutcome.started) ∧
      ((higherlowerStart exApiNone (some exTieSession) (some 700) "airing" 0 0).2.2
          = some exTieSession ∨
        (higherlowerStart exApiNone (some exTieSession) (some 700) "airing" 0 0).1
          = StartOutcome.started)) := by
  refine ⟨by decide, by norm_num, by decide, by decide, by decide, by norm_num [limitValue],
    by decide, ?_⟩
  exact failed_start_preserves_sessions exApiNone (some exGuessSession) "Medium" 500
    "Popularity" 0 (by decide) (by norm_num) (by decide) (by decide)
    exApiNone (some exTieSession) (some 700) "airing" 0 0 (by decide)
    (by norm_num [limitValue]) (by decide)
    exApiNone (some exGuessSession) "Medium" 500 "Popularity" 0
    exApiNone (some exTieSession) (some 700) "airing" 0 0
